import Mathlib

/-!
Shallow embedding of the retirement-dashboard financial core
(src/retirement-dashboard/modules/financial_analyzer.py and the goal-gap
section of src/retirement-dashboard/app.py, get_user_financial_data).

Modelling conventions:
* Python floats are modelled as rationals; the claims under study are about
  the algebraic structure of the formulas, not float rounding.
* Ages arrive from the request layer as integers, so the age fields (and
  hence the exponents years_to_retirement and months_to_retirement) are
  modelled as integers; (1 + r) ** y is integer zpow on rationals, which
  agrees with Python float ** int wherever the base is nonzero.
* Python round(x, k) is modelled as half-up rounding to k decimals (Python
  uses banker's rounding at exact ties; no claim depends on tie behaviour).
* dict.get with a default is modelled with Option fields: a missing key is
  none and takes the default; a present but non-numeric value (FieldVal
  nonNumeric / AgeVal nonNumeric) makes the try-body raise TypeError when it
  reaches the arithmetic, which the catch-all except turns into the default
  return value.  This is modelled by the body returning Option and the entry
  point applying getD.
* datetime.fromisoformat plus the comparison against the cutoff is external
  library code; a transaction carries its parse result directly: timestamp =
  some d (a day number) when parsing and comparison succeed, none when the
  record raises ValueError or TypeError there and is skipped by the inner
  except clause.  The cutoff (datetime.now() - 90 days) is a parameter.
-/

namespace RetirementDashboard

/-- Half-up rounding to two decimal places, modelling round(x, 2). -/
def round2 (x : ℚ) : ℚ := (round (100 * x) : ℤ) / 100

/-- Half-up rounding to one decimal place, modelling round(x, 1). -/
def round1 (x : ℚ) : ℚ := (round (10 * x) : ℤ) / 10

/-- Result record of calculate_retirement_projections (the returned dict). -/
structure Projections where
  total_savings : ℚ
  monthly_income : ℚ
  annual_income : ℚ
  replacement_ratio : ℚ
  total_contributions : ℚ
  investment_growth : ℚ
  years_to_retirement : ℤ
  adequacy_assessment : String
deriving Repr, DecidableEq

/-- Threshold ladder of _assess_retirement_adequacy (financial_analyzer.py,
lines 308-319).  The total_savings argument is accepted and ignored, exactly
as in the source. -/
def assessRetirementAdequacy (replacement_ratio : ℚ) (total_savings : ℚ) : String :=
  if replacement_ratio ≥ 80 then "Excellent - On track for a comfortable retirement"
  else if replacement_ratio ≥ 70 then "Good - Should maintain current lifestyle in retirement"
  else if replacement_ratio ≥ 60 then "Fair - May need to adjust spending in retirement"
  else if replacement_ratio ≥ 40 then "Below target - Consider increasing contributions"
  else "Critical - Significant improvement needed"

/-- Future value of an ordinary annuity.  The spec names this primitive
future_value_of_annuity; in financial_analyzer.py lines 140-146 the identical
expression is written inline: if monthly_return > 0 then
monthly_savings * (((1 + monthly_return) ** months - 1) / monthly_return)
else monthly_savings * months. -/
def future_value_of_annuity (payment monthly_rate : ℚ) (total_months : ℤ) : ℚ :=
  if monthly_rate > 0 then
    payment * (((1 + monthly_rate) ^ total_months - 1) / monthly_rate)
  else
    payment * (total_months : ℚ)

/-- Numeric body of calculate_retirement_projections (financial_analyzer.py
lines 127-171) once the five scenario fields have been extracted:
current_age, retirement_age (integers), monthly_savings,
expected_return_pct (the raw percent figure before the /100 on line 130),
current_savings, and the optional current_annual_income whose absence takes
the inline estimate monthly_savings * 12 / 0.2 (line 155).  The zpow on
line 137 is total here, whereas Python raises ZeroDivisionError on
0.0 ** negative (base zero exactly when expected_return_pct = -100, negative
exponent exactly when retirement_age < current_age); that raising corner
never reaches this function: calcRetirementProjectionsBody below guards it
and routes it to the except clause.  On every other input integer zpow
agrees with Python float ** int.  The annuity power on line 143 sits under
the monthly_return > 0 branch, so its base exceeds 1 and cannot raise. -/
def computeProjections (current_age retirement_age : ℤ)
    (monthly_savings expected_return_pct current_savings : ℚ)
    (current_annual_income_opt : Option ℚ) : Projections :=
  let expected_return := expected_return_pct / 100
  let years_to_retirement := retirement_age - current_age
  let months_to_retirement := years_to_retirement * 12
  let future_value_current := current_savings * (1 + expected_return) ^ years_to_retirement
  let monthly_return := expected_return / 12
  let future_value_contributions :=
    future_value_of_annuity monthly_savings monthly_return months_to_retirement
  let total_savings := future_value_current + future_value_contributions
  let annual_withdrawal := total_savings * (4 / 100)
  let monthly_retirement_income := annual_withdrawal / 12
  let current_annual_income := current_annual_income_opt.getD (monthly_savings * 12 / (1 / 5))
  let replacement_ratio :=
    if current_annual_income > 0 then annual_withdrawal / current_annual_income * 100 else 0
  let total_contributions := current_savings + monthly_savings * (months_to_retirement : ℚ)
  let investment_growth := total_savings - total_contributions
  { total_savings := round2 total_savings
    monthly_income := round2 monthly_retirement_income
    annual_income := round2 annual_withdrawal
    replacement_ratio := round1 replacement_ratio
    total_contributions := round2 total_contributions
    investment_growth := round2 investment_growth
    years_to_retirement := years_to_retirement
    adequacy_assessment := assessRetirementAdequacy replacement_ratio total_savings }

/-- Value stored under a numeric scenario key: a number, or some non-numeric
JSON value (string, null, ...) that raises TypeError when arithmetic touches
it. -/
inductive FieldVal
  | num (q : ℚ)
  | nonNumeric
deriving Repr, DecidableEq

/-- Value stored under an age key (integer-valued in the request layer). -/
inductive AgeVal
  | int (z : ℤ)
  | nonNumeric
deriving Repr, DecidableEq

/-- Scenario dict as it reaches calculate_retirement_projections: each field
may be absent (none), numeric, or present but non-numeric. -/
structure RawScenario where
  current_age : Option AgeVal
  retirement_age : Option AgeVal
  monthly_savings : Option FieldVal
  expected_return : Option FieldVal
  current_savings : Option FieldVal
  current_annual_income : Option FieldVal
deriving Repr, DecidableEq

/-- Extraction of an age field: scenario_data.get(key, default).  A missing
key yields the default; a non-numeric value yields none, meaning the body
raises once arithmetic reaches it. -/
def getAge (v : Option AgeVal) (dflt : ℤ) : Option ℤ :=
  match v with
  | none => some dflt
  | some (AgeVal.int z) => some z
  | some AgeVal.nonNumeric => none

/-- Extraction of a numeric field, as getAge but rational-valued. -/
def getNum (v : Option FieldVal) (dflt : ℚ) : Option ℚ :=
  match v with
  | none => some dflt
  | some (FieldVal.num q) => some q
  | some FieldVal.nonNumeric => none

/-- Extraction of current_annual_income, whose default (line 155) is computed
from monthly_savings inside the body; a missing key is reported as
some none so the body can substitute that inline estimate. -/
def getNumOpt (v : Option FieldVal) : Option (Option ℚ) :=
  match v with
  | none => some none
  | some (FieldVal.num q) => some (some q)
  | some FieldVal.nonNumeric => none

/-- Try-body of calculate_retirement_projections: some result when every
field is numeric or missing and the arithmetic does not raise; none when a
present non-numeric field makes the arithmetic raise TypeError, and none
when line 137 evaluates 0.0 ** negative - expected_return = -100 (so the
base 1 + expected_return/100 is zero) together with
retirement_age < current_age - which raises ZeroDivisionError in Python. -/
def calcRetirementProjectionsBody (s : RawScenario) : Option Projections :=
  match getAge s.current_age 30, getAge s.retirement_age 65,
        getNum s.monthly_savings 500, getNum s.expected_return 7,
        getNum s.current_savings 0, getNumOpt s.current_annual_income with
  | some ca, some ra, some ms, some er, some cs, some cai =>
      if er = -100 ∧ ra - ca < 0 then none
      else some (computeProjections ca ra ms er cs cai)
  | _, _, _, _, _, _ => none

/-- Dict returned by _get_default_projections (financial_analyzer.py lines
333-344), the value substituted by the catch-all except clause. -/
def defaultProjections : Projections :=
  { total_savings := 0
    monthly_income := 0
    annual_income := 0
    replacement_ratio := 0
    total_contributions := 0
    investment_growth := 0
    years_to_retirement := 35
    adequacy_assessment := "Unable to calculate" }

/-- Entry point calculate_retirement_projections (financial_analyzer.py
lines 124-175): the try-body, with the except clause returning the default
projections dict. -/
def calculate_retirement_projections (s : RawScenario) : Projections :=
  (calcRetirementProjectionsBody s).getD defaultProjections

/-- Transaction record as consumed by calculate_income_expenses.  timestamp
holds the parsed date (a day number comparable with the cutoff) or none when
datetime.fromisoformat / the comparison raises and the inner except skips the
record; amount is in cents (.get with default 0, assumed numeric here);
the account fields model .get returning None when absent. -/
structure Transaction where
  timestamp : Option ℤ
  amount : ℚ
  toAccountNum : Option String
  fromAccountNum : Option String
deriving Repr, DecidableEq

/-- Window filter of financial_analyzer.py lines 85-93: keep records whose
timestamp parses and is at least the cutoff date. -/
def recentTransactions (transactions : List Transaction) (cutoff_date : ℤ) : List Transaction :=
  transactions.filter (fun t =>
    match t.timestamp with
    | some d => decide (cutoff_date ≤ d)
    | none => false)

/-- Loop body of financial_analyzer.py lines 101-111, accumulating the
(total_income, total_expenses) pair: amount/100 goes to income when
toAccountNum equals the account id, otherwise (elif) to expenses when
fromAccountNum equals the account id. -/
def txStep (account_id : String) (acc : ℚ × ℚ) (t : Transaction) : ℚ × ℚ :=
  let amount := t.amount / 100
  if t.toAccountNum = some account_id then (acc.1 + amount, acc.2)
  else if t.fromAccountNum = some account_id then (acc.1, acc.2 + amount)
  else acc

/-- Entry point calculate_income_expenses (financial_analyzer.py lines
75-122): early (0, 0) returns on an empty list and on an empty window,
the classification fold, and the division by
max(min(3, len(recent)/10), 1). -/
def calculate_income_expenses (transactions : List Transaction) (account_id : String)
    (cutoff_date : ℤ) : ℚ × ℚ :=
  if transactions.isEmpty then (0, 0)
  else
    let recent := recentTransactions transactions cutoff_date
    if recent.isEmpty then (0, 0)
    else
      let totals := recent.foldl (txStep account_id) (0, 0)
      let months : ℚ := min 3 ((recent.length : ℚ) / 10)
      (totals.1 / max months 1, totals.2 / max months 1)

/-- Raw transaction record before the float(amount) conversion on line 102:
the amount field may be missing (then float(0) = 0.0) or hold a non-numeric
value, in which case float() raises ValueError inside the classification
loop.  That loop is not wrapped by the per-record except (lines 86-93 only
guard timestamp parsing), so the raise escapes to the outer except clause of
lines 120-122. -/
structure RawTransaction where
  timestamp : Option ℤ
  amount : Option FieldVal
  toAccountNum : Option String
  fromAccountNum : Option String
deriving Repr, DecidableEq

/-- Model of float(transaction.get('amount', 0)): the default 0 when the key
is missing, the number itself when numeric, none (ValueError) otherwise. -/
def getAmount (v : Option FieldVal) : Option ℚ :=
  match v with
  | none => some 0
  | some (FieldVal.num q) => some q
  | some FieldVal.nonNumeric => none

/-- Window filter of lines 85-93 at the raw level; the first loop touches
only the timestamp, never the amount. -/
def recentRawTransactions (transactions : List RawTransaction) (cutoff_date : ℤ) :
    List RawTransaction :=
  transactions.filter (fun t =>
    match t.timestamp with
    | some d => decide (cutoff_date ≤ d)
    | none => false)

/-- Conversion of the retained records by float() in the classification
loop: none as soon as one retained record has a non-numeric amount. -/
def floatAmounts (transactions : List RawTransaction) : Option (List Transaction) :=
  transactions.mapM (fun t =>
    (getAmount t.amount).map (fun q =>
      { timestamp := t.timestamp, amount := q,
        toAccountNum := t.toAccountNum, fromAccountNum := t.fromAccountNum }))

/-- Try-body of calculate_income_expenses at the raw level: some result when
no retained record makes float() raise, none when one does. -/
def calcIncomeExpensesBody (transactions : List RawTransaction) (account_id : String)
    (cutoff_date : ℤ) : Option (ℚ × ℚ) :=
  if transactions.isEmpty then some (0, 0)
  else
    let recent := recentRawTransactions transactions cutoff_date
    if recent.isEmpty then some (0, 0)
    else
      match floatAmounts recent with
      | some recentQ =>
          let totals := recentQ.foldl (txStep account_id) (0, 0)
          let months : ℚ := min 3 ((recentQ.length : ℚ) / 10)
          some (totals.1 / max months 1, totals.2 / max months 1)
      | none => none

/-- Entry point calculate_income_expenses over raw records (lines 75-122):
the try-body with the except clause of lines 120-122 returning (0.0, 0.0).
calculate_income_expenses above is the same function on records whose
amounts are already numeric, where the body cannot raise. -/
def calculate_income_expenses_raw (transactions : List RawTransaction) (account_id : String)
    (cutoff_date : ℤ) : ℚ × ℚ :=
  (calcIncomeExpensesBody transactions account_id cutoff_date).getD (0, 0)

/-- Goal-gap computation of app.py get_user_financial_data lines 540-561.
The source fixes retirement_goal = 1500000, years_to_retirement = 30 and
cagr = 0.05 as local constants and varies only current_balance; the formula
is parametric in all four, which is how the spec quantifies over it. -/
def additional_monthly_savings (current_balance retirement_goal : ℚ)
    (years_to_retirement : ℤ) (cagr : ℚ) : ℚ :=
  let future_value_current := current_balance * (1 + cagr) ^ years_to_retirement
  let amount_still_needed := max 0 (retirement_goal - future_value_current)
  if amount_still_needed > 0 ∧ years_to_retirement > 0 then
    let monthly_rate := cagr / 12
    let total_months := years_to_retirement * 12
    if monthly_rate > 0 then
      amount_still_needed / (((1 + monthly_rate) ^ total_months - 1) / monthly_rate)
    else
      amount_still_needed / (total_months : ℚ)
  else 0

/-- Savings-gap computation of app.py lines 563-564:
max(0, additional_monthly_savings - (monthly_income - monthly_expenses)). -/
def savings_gap (current_balance retirement_goal : ℚ) (years_to_retirement : ℤ)
    (cagr monthly_income monthly_expenses : ℚ) : ℚ :=
  let current_monthly_savings := monthly_income - monthly_expenses
  max 0 (additional_monthly_savings current_balance retirement_goal years_to_retirement cagr
          - current_monthly_savings)

/-- Sample in-window transaction of 30000 cents into account A. -/
def txIncomeA : Transaction :=
  { timestamp := some 0, amount := 30000, toAccountNum := some "A", fromAccountNum := some "B" }

/-- Sample self-transfer of 100 cents inside account A. -/
def txSelfA : Transaction :=
  { timestamp := some 0, amount := 100, toAccountNum := some "A", fromAccountNum := some "A" }

/-- Sample outgoing transaction of 100 cents from account A to account B. -/
def txOutA : Transaction :=
  { timestamp := some 0, amount := 100, toAccountNum := some "B", fromAccountNum := some "A" }

/-- Evaluation rule for round2 at a concrete argument: round2 x = n/100 once
n is squeezed between the floor bounds of 100x + 1/2. -/
lemma round2_eq (x : ℚ) (n : ℤ) (h1 : (n : ℚ) ≤ 100 * x + 1 / 2)
    (h2 : 100 * x + 1 / 2 < n + 1) : round2 x = (n : ℚ) / 100 := by
  unfold round2
  rw [round_eq]
  rw [show ⌊100 * x + 1 / 2⌋ = n from Int.floor_eq_iff.mpr ⟨h1, h2⟩]

/-- Monotonicity of the two-decimal rounding used for displayed amounts. -/
lemma round2_le_round2 {x y : ℚ} (h : x ≤ y) : round2 x ≤ round2 y := by
  unfold round2
  have hr : round (100 * x) ≤ round (100 * y) := by
    rw [round_eq, round_eq]
    exact Int.floor_mono (by linarith)
  have hc : ((round (100 * x) : ℤ) : ℚ) ≤ ((round (100 * y) : ℤ) : ℚ) :=
    Int.cast_le.mpr hr
  linarith

/-- Reduction of the entry point on an all-numeric scenario that does not
hit the 0.0 ** negative raise: the guarded body succeeds and getD returns
the computed projection. -/
lemma projections_of_numeric (ca ra : ℤ) (ms er cs : ℚ)
    (h : ¬(er = -100 ∧ ra - ca < 0)) :
    calculate_retirement_projections
      { current_age := some (AgeVal.int ca), retirement_age := some (AgeVal.int ra),
        monthly_savings := some (FieldVal.num ms), expected_return := some (FieldVal.num er),
        current_savings := some (FieldVal.num cs), current_annual_income := none } =
      computeProjections ca ra ms er cs none := by
  show (if er = -100 ∧ ra - ca < 0 then none
        else some (computeProjections ca ra ms er cs none)).getD defaultProjections =
    computeProjections ca ra ms er cs none
  rw [if_neg h]
  rfl

/-- Claim C1, counterexample.  The claim says a scenario with
retirement_age ≤ current_age, or with missing required fields, fails with a
structured InvalidScenario error.  The code has no such check: with
current_age = 65, retirement_age = 30 and a zero return the try-body
succeeds (returns a result, not an exception) and hands back a projection
built from the negative year difference; and with every field missing the
entry point silently substitutes the defaults 30/65/500/7/0 and computes
from those. -/
theorem c1_counterexample_no_invalid_scenario :
    (calcRetirementProjectionsBody
      { current_age := some (AgeVal.int 65), retirement_age := some (AgeVal.int 30),
        monthly_savings := some (FieldVal.num 500), expected_return := some (FieldVal.num 0),
        current_savings := some (FieldVal.num 0), current_annual_income := none }).isSome = true ∧
    (calculate_retirement_projections
      { current_age := some (AgeVal.int 65), retirement_age := some (AgeVal.int 30),
        monthly_savings := some (FieldVal.num 500), expected_return := some (FieldVal.num 0),
        current_savings := some (FieldVal.num 0), current_annual_income := none
        }).years_to_retirement = -35 ∧
    calculate_retirement_projections
      { current_age := none, retirement_age := none, monthly_savings := none,
        expected_return := none, current_savings := none, current_annual_income := none } =
      computeProjections 30 65 500 7 0 none := by
  have h0 : ¬((0 : ℚ) = -100 ∧ (30 : ℤ) - 65 < 0) := by norm_num
  refine ⟨?_, ?_, ?_⟩
  · show (if (0 : ℚ) = -100 ∧ (30 : ℤ) - 65 < 0 then none
          else some (computeProjections 65 30 500 0 0 none)).isSome = true
    rw [if_neg h0]
    rfl
  · rw [projections_of_numeric 65 30 500 0 0 h0]
    rfl
  · show (if (7 : ℚ) = -100 ∧ (65 : ℤ) - 30 < 0 then none
          else some (computeProjections 30 65 500 7 0 none)).getD defaultProjections =
      computeProjections 30 65 500 7 0 none
    rw [if_neg (by norm_num)]
    rfl

/-- Claim C1, amended.  calculate_retirement_projections performs no input
validation and never produces a structured error: an all-numeric scenario,
including one with retirement_age ≤ current_age, is computed as is whenever
the arithmetic does not raise; the one arithmetic raise - the
ZeroDivisionError from 0.0 ** negative, i.e. expected_return = -100
together with retirement_age < current_age - is caught and also yields the
default projections dict, never a structured error; and a scenario with
every required field missing is computed from the silently substituted
defaults current_age 30, retirement_age 65, monthly_savings 500,
expected_return 7, current_savings 0. -/
theorem c1_amended_no_validation (ca ra : ℤ) (ms er cs : ℚ) :
    (¬(er = -100 ∧ ra - ca < 0) →
      calculate_retirement_projections
        { current_age := some (AgeVal.int ca), retirement_age := some (AgeVal.int ra),
          monthly_savings := some (FieldVal.num ms), expected_return := some (FieldVal.num er),
          current_savings := some (FieldVal.num cs), current_annual_income := none } =
        computeProjections ca ra ms er cs none) ∧
    (er = -100 ∧ ra - ca < 0 →
      calculate_retirement_projections
        { current_age := some (AgeVal.int ca), retirement_age := some (AgeVal.int ra),
          monthly_savings := some (FieldVal.num ms), expected_return := some (FieldVal.num er),
          current_savings := some (FieldVal.num cs), current_annual_income := none } =
        defaultProjections) ∧
    calculate_retirement_projections
      { current_age := none, retirement_age := none, monthly_savings := none,
        expected_return := none, current_savings := none, current_annual_income := none } =
      computeProjections 30 65 500 7 0 none := by
  refine ⟨fun h => projections_of_numeric ca ra ms er cs h, fun h => ?_, ?_⟩
  · show (if er = -100 ∧ ra - ca < 0 then none
          else some (computeProjections ca ra ms er cs none)).getD defaultProjections =
      defaultProjections
    rw [if_pos h]
    rfl
  · show (if (7 : ℚ) = -100 ∧ (65 : ℤ) - 30 < 0 then none
          else some (computeProjections 30 65 500 7 0 none)).getD defaultProjections =
      computeProjections 30 65 500 7 0 none
    rw [if_neg (by norm_num)]
    rfl

/-- Witness for the amended C1 theorem: the no-raise branch at the inverted
ages with zero return, and the caught ZeroDivisionError branch at
expected_return = -100 with the same inverted ages. -/
theorem c1_amended_no_validation_witness :
    calculate_retirement_projections
      { current_age := some (AgeVal.int 65), retirement_age := some (AgeVal.int 30),
        monthly_savings := some (FieldVal.num 500), expected_return := some (FieldVal.num 0),
        current_savings := some (FieldVal.num 0), current_annual_income := none } =
      computeProjections 65 30 500 0 0 none ∧
    calculate_retirement_projections
      { current_age := some (AgeVal.int 65), retirement_age := some (AgeVal.int 30),
        monthly_savings := some (FieldVal.num 500), expected_return := some (FieldVal.num (-100)),
        current_savings := some (FieldVal.num 0), current_annual_income := none } =
      defaultProjections :=
  ⟨(c1_amended_no_validation 65 30 500 0 0).1 (by norm_num),
   (c1_amended_no_validation 65 30 500 (-100) 0).2.1 (by norm_num)⟩

/-- Claim C2, counterexample.  investment_growth is computed on line 160 as
the plain difference total_savings - total_contributions, with no
max(0, ...): a scenario with a negative expected return (allowed by the
code) yields investment_growth = -500 < 0 in the output. -/
theorem c2_counterexample_negative_growth :
    (calculate_retirement_projections
      { current_age := some (AgeVal.int 30), retirement_age := some (AgeVal.int 31),
        monthly_savings := some (FieldVal.num 0), expected_return := some (FieldVal.num (-50)),
        current_savings := some (FieldVal.num 1000), current_annual_income := none
        }).investment_growth < 0 := by
  rw [projections_of_numeric 30 31 0 (-50) 1000 (by norm_num)]
  simp only [computeProjections, future_value_of_annuity]
  norm_num
  rw [round2_eq (-500) (-50000) (by norm_num) (by norm_num)]
  norm_num

/-- Claim C2, amended.  savings_gap (app.py line 564) is clamped with
max(0, ...) and is never negative, but investment_growth is the unclamped
difference total_savings - total_contributions and can be negative in the
output of calculate_retirement_projections. -/
theorem c2_amended_gap_clamped_growth_unclamped :
    (∀ (cb goal : ℚ) (y : ℤ) (cagr mi me : ℚ), 0 ≤ savings_gap cb goal y cagr mi me) ∧
    (∃ s : RawScenario, (calculate_retirement_projections s).investment_growth < 0) :=
  ⟨fun _ _ _ _ _ _ => le_max_left 0 _,
   ⟨{ current_age := some (AgeVal.int 30), retirement_age := some (AgeVal.int 31),
      monthly_savings := some (FieldVal.num 0), expected_return := some (FieldVal.num (-50)),
      current_savings := some (FieldVal.num 1000), current_annual_income := none },
    by
      rw [projections_of_numeric 30 31 0 (-50) 1000 (by norm_num)]
      simp only [computeProjections, future_value_of_annuity]
      norm_num
      rw [round2_eq (-500) (-50000) (by norm_num) (by norm_num)]
      norm_num⟩⟩

/-- Claim C3, counterexample.  The claim says the core never catches its own
computation errors and never substitutes fallback numbers or
silently-wrong zeros.  Lines 173-175 do exactly that: a present non-numeric
monthly_savings makes the try-body raise, and the catch-all except returns
the all-zero default projections dict instead of propagating an error. -/
theorem c3_counterexample_fallback_substitution :
    calculate_retirement_projections
      { current_age := some (AgeVal.int 30), retirement_age := some (AgeVal.int 65),
        monthly_savings := some FieldVal.nonNumeric, expected_return := some (FieldVal.num 7),
        current_savings := some (FieldVal.num 0), current_annual_income := none } =
      defaultProjections ∧
    defaultProjections.total_savings = 0 ∧ defaultProjections.monthly_income = 0 :=
  ⟨rfl, rfl, rfl⟩

/-- Claim C3, amended.  Both core functions wrap their bodies in catch-all
except clauses and substitute fallback numbers when the body raises:
calculate_retirement_projections returns the all-zero default projections
dict (lines 173-175) whenever its body raises - with a present non-numeric
field, exemplified below by monthly_savings, or with the 0.0 ** negative
ZeroDivisionError already guarded in the body - and calculate_income_expenses
returns (0.0, 0.0) from its except clause (lines 120-122) whenever its body
raises, which happens exactly when some retained record's amount makes
float() raise, as the last conjunct exhibits on a concrete record. -/
theorem c3_amended_catch_all_fallback :
    (∀ s : RawScenario, calcRetirementProjectionsBody s = none →
      calculate_retirement_projections s = defaultProjections) ∧
    (∀ s : RawScenario, s.monthly_savings = some FieldVal.nonNumeric →
      calcRetirementProjectionsBody s = none) ∧
    (∀ (transactions : List RawTransaction) (account_id : String) (cutoff_date : ℤ),
      calcIncomeExpensesBody transactions account_id cutoff_date = none →
      calculate_income_expenses_raw transactions account_id cutoff_date = (0, 0)) ∧
    calcIncomeExpensesBody
      [{ timestamp := some 0, amount := some FieldVal.nonNumeric,
         toAccountNum := some "A", fromAccountNum := some "B" }] "A" 0 = none := by
  refine ⟨?_, ?_, ?_, ?_⟩
  · intro s h
    unfold calculate_retirement_projections
    rw [h]
    rfl
  · intro s h
    unfold calcRetirementProjectionsBody
    rw [h]
    rcases getAge s.current_age 30 with _ | ca <;>
      rcases getAge s.retirement_age 65 with _ | ra <;>
      rcases getNum s.expected_return 7 with _ | er <;>
      rcases getNum s.current_savings 0 with _ | cs <;>
      rcases getNumOpt s.current_annual_income with _ | cai <;> rfl
  · intro transactions account_id cutoff_date h
    unfold calculate_income_expenses_raw
    rw [h]
    rfl
  · rfl

/-- Witness for the amended C3 theorem: a non-numeric monthly_savings yields
the default projections dict, and a retained record with a non-numeric
amount yields (0.0, 0.0). -/
theorem c3_amended_catch_all_fallback_witness :
    calculate_retirement_projections
      { current_age := none, retirement_age := none,
        monthly_savings := some FieldVal.nonNumeric, expected_return := none,
        current_savings := none, current_annual_income := none } = defaultProjections ∧
    calculate_income_expenses_raw
      [{ timestamp := some 0, amount := some FieldVal.nonNumeric,
         toAccountNum := some "A", fromAccountNum := some "B" }] "A" 0 = (0, 0) :=
  ⟨c3_amended_catch_all_fallback.1
      { current_age := none, retirement_age := none,
        monthly_savings := some FieldVal.nonNumeric, expected_return := none,
        current_savings := none, current_annual_income := none }
      (c3_amended_catch_all_fallback.2.1
        { current_age := none, retirement_age := none,
          monthly_savings := some FieldVal.nonNumeric, expected_return := none,
          current_savings := none, current_annual_income := none } rfl),
   c3_amended_catch_all_fallback.2.2.1
      [{ timestamp := some 0, amount := some FieldVal.nonNumeric,
         toAccountNum := some "A", fromAccountNum := some "B" }] "A" 0
      c3_amended_catch_all_fallback.2.2.2⟩

/-- Claim C4, counterexample.  The claim says the classifier returns
documented non-zero fallback constants on an empty transaction list.  Lines
78-79 return (0.0, 0.0): both components are zero.  (The non-zero fallbacks
4500/2800 live in app.py get_user_financial_data, not in this function.) -/
theorem c4_counterexample_zero_not_fallback :
    calculate_income_expenses [] "1011226111" 0 = (0, 0) :=
  rfl

/-- Claim C4, amended.  On an empty transaction list, and more generally
whenever no transaction survives the trailing window, calculate_income_expenses
does not raise and returns (0.0, 0.0) - zeros, not non-zero fallback
constants. -/
theorem c4_amended_returns_zeros (transactions : List Transaction) (account_id : String)
    (cutoff_date : ℤ) (h : recentTransactions transactions cutoff_date = []) :
    calculate_income_expenses transactions account_id cutoff_date = (0, 0) := by
  cases transactions with
  | nil => rfl
  | cons t ts => simp [calculate_income_expenses, h]

/-- Witness for the amended C4 theorem: one transaction, strictly older than
the cutoff, is filtered out and the zeros are returned. -/
theorem c4_amended_returns_zeros_witness :
    calculate_income_expenses
      [{ timestamp := some (-100), amount := 5000,
         toAccountNum := some "A", fromAccountNum := some "B" }] "A" 0 = (0, 0) :=
  c4_amended_returns_zeros
    [{ timestamp := some (-100), amount := 5000,
       toAccountNum := some "A", fromAccountNum := some "B" }] "A" 0 (by decide)

/-- Claim C5, counterexample.  The claim says both totals are divided by the
fixed window length of 3 months.  The code divides by
max(min(3, len(recent)/10), 1): with a single retained income transaction of
30000 cents the divisor is 1, so the function returns 300, not 300/3. -/
theorem c5_counterexample_divisor_not_three :
    calculate_income_expenses [txIncomeA] "A" 0 = (300, 0) ∧ (300 : ℚ) / 3 < 300 := by
  constructor
  · simp only [calculate_income_expenses, recentTransactions, txStep, txIncomeA,
      List.filter, List.foldl, List.isEmpty, List.length]
    norm_num
  · norm_num

/-- Claim C5, amended.  calculate_income_expenses divides both totals by
max(min(3, n/10), 1) where n is the number of retained transactions: the
divisor is the window length 3 only when n ≥ 30, and is 1 (no averaging at
all) whenever n ≤ 10. -/
theorem c5_amended_estimated_divisor (transactions : List Transaction) (account_id : String)
    (cutoff_date : ℤ) :
    (30 ≤ (recentTransactions transactions cutoff_date).length →
      calculate_income_expenses transactions account_id cutoff_date =
        (((recentTransactions transactions cutoff_date).foldl (txStep account_id) (0, 0)).1 / 3,
         ((recentTransactions transactions cutoff_date).foldl (txStep account_id) (0, 0)).2 / 3)) ∧
    ((recentTransactions transactions cutoff_date).length ≤ 10 →
      calculate_income_expenses transactions account_id cutoff_date =
        (((recentTransactions transactions cutoff_date).foldl (txStep account_id) (0, 0)).1,
         ((recentTransactions transactions cutoff_date).foldl (txStep account_id) (0, 0)).2)) := by
  constructor
  · intro h30
    have htx : transactions.isEmpty = false := by
      cases transactions with
      | nil => simp [recentTransactions] at h30
      | cons t ts => rfl
    have hrec : (recentTransactions transactions cutoff_date).isEmpty = false := by
      rcases hval : recentTransactions transactions cutoff_date with _ | ⟨t, ts⟩
      · rw [hval] at h30; simp at h30
      · rfl
    have hlen : (30 : ℚ) ≤ ((recentTransactions transactions cutoff_date).length : ℚ) := by
      exact_mod_cast h30
    have hm : min 3 (((recentTransactions transactions cutoff_date).length : ℚ) / 10) = 3 :=
      min_eq_left (by linarith)
    have hmax : max (3 : ℚ) 1 = 3 := max_eq_left (by norm_num)
    simp only [calculate_income_expenses, htx, Bool.false_eq_true, if_false, hrec, hm, hmax]
  · intro h10
    cases transactions with
    | nil => simp [calculate_income_expenses, recentTransactions]
    | cons t ts =>
      rcases hval : recentTransactions (t :: ts) cutoff_date with _ | ⟨r, rs⟩
      · simp [calculate_income_expenses, hval]
      · rw [hval] at h10
        have hlen : ((r :: rs).length : ℚ) ≤ 10 := by exact_mod_cast h10
        have hm : max (min 3 (((r :: rs).length : ℚ) / 10)) 1 = 1 :=
          max_eq_right (le_trans (min_le_right _ _) (by linarith))
        simp only [calculate_income_expenses, hval, List.isEmpty_cons, Bool.false_eq_true,
          if_false, hm, div_one]

/-- Witness for the amended C5 theorem: thirty retained income transactions
give the divisor 3, a single retained transaction gives the divisor 1. -/
theorem c5_amended_estimated_divisor_witness :
    calculate_income_expenses (List.replicate 30 txIncomeA) "A" 0 =
      (((recentTransactions (List.replicate 30 txIncomeA) 0).foldl (txStep "A") (0, 0)).1 / 3,
       ((recentTransactions (List.replicate 30 txIncomeA) 0).foldl (txStep "A") (0, 0)).2 / 3) ∧
    calculate_income_expenses [txIncomeA] "A" 0 =
      (((recentTransactions [txIncomeA] 0).foldl (txStep "A") (0, 0)).1,
       ((recentTransactions [txIncomeA] 0).foldl (txStep "A") (0, 0)).2) :=
  ⟨(c5_amended_estimated_divisor (List.replicate 30 txIncomeA) "A" 0).1 (by decide),
   (c5_amended_estimated_divisor [txIncomeA] "A" 0).2 (by decide)⟩

/-- Round-trip law at the level of the unrounded total: feeding the goal-gap
payment back into the projection formula reproduces the goal exactly,
provided the goal is at least the future value of the current balance. -/
lemma round_trip_core (cb goal : ℚ) (years : ℤ) (cagr : ℚ) (hy : 0 < years)
    (hfv : cb * (1 + cagr) ^ years ≤ goal) :
    cb * (1 + cagr) ^ years +
      future_value_of_annuity (additional_monthly_savings cb goal years cagr)
        (cagr / 12) (years * 12) = goal := by
  have hmax : max 0 (goal - cb * (1 + cagr) ^ years) = goal - cb * (1 + cagr) ^ years :=
    max_eq_right (by linarith)
  simp only [additional_monthly_savings, hmax]
  by_cases hneed : 0 < goal - cb * (1 + cagr) ^ years
  · rw [if_pos ⟨hneed, hy⟩]
    by_cases hmr : cagr / 12 > 0
    · rw [if_pos hmr]
      unfold future_value_of_annuity
      rw [if_pos hmr]
      have hm : (0 : ℤ) < years * 12 := by positivity
      have hone : 1 < (1 + cagr / 12) ^ (years * 12) := by
        have := (zpow_right_strictMono₀ (show (1 : ℚ) < 1 + cagr / 12 by linarith)) hm
        simpa using this
      have hF : 0 < ((1 + cagr / 12) ^ (years * 12) - 1) / (cagr / 12) :=
        div_pos (by linarith) hmr
      rw [div_mul_cancel₀ _ (ne_of_gt hF)]
      ring
    · rw [if_neg hmr]
      unfold future_value_of_annuity
      rw [if_neg hmr]
      have hm : (0 : ℤ) < years * 12 := by positivity
      have hm2 : ((years * 12 : ℤ) : ℚ) ≠ 0 := by
        exact_mod_cast ne_of_gt hm
      rw [div_mul_cancel₀ _ hm2]
      ring
  · rw [if_neg (by tauto)]
    have hz : future_value_of_annuity 0 (cagr / 12) (years * 12) = 0 := by
      unfold future_value_of_annuity
      split <;> ring
    rw [hz]
    have : goal - cb * (1 + cagr) ^ years = 0 := le_antisymm (by linarith) (by linarith)
    linarith

/-- Claim C6, counterexample.  When the current balance alone overshoots the
target, additional_monthly_savings is 0 and the round trip does not return
the target: with current_balance = 2000000, target = 1500000, 30 years at
5%, the projection returns about 8.64 million, far beyond any rounding
tolerance of the 1.5 million target. -/
theorem c6_counterexample_balance_overshoot :
    additional_monthly_savings 2000000 1500000 30 (5 / 100) = 0 ∧
    1500000 < (calculate_retirement_projections
      { current_age := some (AgeVal.int 35), retirement_age := some (AgeVal.int 65),
        monthly_savings :=
          some (FieldVal.num (additional_monthly_savings 2000000 1500000 30 (5 / 100))),
        expected_return := some (FieldVal.num 5),
        current_savings := some (FieldVal.num 2000000),
        current_annual_income := none }).total_savings := by
  have hadd : additional_monthly_savings 2000000 1500000 30 (5 / 100) = 0 := by
    simp only [additional_monthly_savings]
    norm_num [max_def]
  refine ⟨hadd, ?_⟩
  rw [projections_of_numeric 35 65
    (additional_monthly_savings 2000000 1500000 30 (5 / 100)) 5 2000000 (by norm_num)]
  rw [hadd]
  simp only [computeProjections, future_value_of_annuity]
  norm_num
  rw [round2_eq (4640650289117164100520051333566036654601 / 536870912000000000000000000000000)
    864388475 (by norm_num) (by norm_num)]
  norm_num

/-- Claim C6, amended.  The round-trip law holds whenever the target is at
least the future value of the current balance (the only regime the goal-gap
formula is designed for): feeding additional_monthly_savings back into the
forward projection with matching parameters returns exactly the target
(up to the display rounding the projection applies to its output).  When the
balance overshoots the target the payment is clamped to 0 and the projection
returns the balance's future value instead of the target. -/
theorem c6_amended_round_trip (cb goal : ℚ) (years : ℤ) (cagr : ℚ) (hy : 0 < years)
    (hfv : cb * (1 + cagr) ^ years ≤ goal) :
    (calculate_retirement_projections
      { current_age := some (AgeVal.int 0), retirement_age := some (AgeVal.int years),
        monthly_savings :=
          some (FieldVal.num (additional_monthly_savings cb goal years cagr)),
        expected_return := some (FieldVal.num (100 * cagr)),
        current_savings := some (FieldVal.num cb),
        current_annual_income := none }).total_savings = round2 goal := by
  have h100 : (100 * cagr) / 100 = cagr := mul_div_cancel_left₀ _ (by norm_num)
  have hcore := round_trip_core cb goal years cagr hy hfv
  have hg : ¬(100 * cagr = -100 ∧ years - 0 < 0) := fun hc => absurd hc.2 (by omega)
  rw [projections_of_numeric 0 years (additional_monthly_savings cb goal years cagr)
    (100 * cagr) cb hg]
  simp only [computeProjections, h100, sub_zero]
  rw [hcore]

/-- Witness for the amended C6 theorem: zero balance, a 1200 target over one
year at zero growth; the projection of the required payment returns the
target. -/
theorem c6_amended_round_trip_witness :
    (calculate_retirement_projections
      { current_age := some (AgeVal.int 0), retirement_age := some (AgeVal.int 1),
        monthly_savings := some (FieldVal.num (additional_monthly_savings 0 1200 1 0)),
        expected_return := some (FieldVal.num (100 * 0)),
        current_savings := some (FieldVal.num 0),
        current_annual_income := none }).total_savings = round2 1200 :=
  c6_amended_round_trip 0 1200 1 0 (by norm_num) (by norm_num)

/-- Monotonicity of the annuity term in the payment, for non-negative rate
and a non-negative number of months. -/
lemma future_value_of_annuity_mono {monthly_rate : ℚ} (hmr : 0 ≤ monthly_rate) {m : ℤ}
    (hm : 0 ≤ m) {p1 p2 : ℚ} (hp : p1 ≤ p2) :
    future_value_of_annuity p1 monthly_rate m ≤ future_value_of_annuity p2 monthly_rate m := by
  unfold future_value_of_annuity
  split_ifs with h
  · refine mul_le_mul_of_nonneg_right hp (div_nonneg ?_ h.le)
    have := one_le_zpow₀ (by linarith : (1 : ℚ) ≤ 1 + monthly_rate) hm
    linarith
  · exact mul_le_mul_of_nonneg_right hp (by exact_mod_cast hm)

/-- Claim C7.  With retirement_age > current_age, a non-negative expected
return and everything else fixed, a larger monthly contribution never yields
a smaller total_projected_savings from the forward projection. -/
theorem c7_total_savings_monotone_in_contribution (ca ra : ℤ) (ms1 ms2 er cs : ℚ)
    (hra : ca < ra) (her : 0 ≤ er) (hms : ms1 ≤ ms2) :
    (calculate_retirement_projections
      { current_age := some (AgeVal.int ca), retirement_age := some (AgeVal.int ra),
        monthly_savings := some (FieldVal.num ms1), expected_return := some (FieldVal.num er),
        current_savings := some (FieldVal.num cs),
        current_annual_income := none }).total_savings ≤
    (calculate_retirement_projections
      { current_age := some (AgeVal.int ca), retirement_age := some (AgeVal.int ra),
        monthly_savings := some (FieldVal.num ms2), expected_return := some (FieldVal.num er),
        current_savings := some (FieldVal.num cs),
        current_annual_income := none }).total_savings := by
  have hg : ¬(er = -100 ∧ ra - ca < 0) := fun hc => absurd hc.2 (by omega)
  rw [projections_of_numeric ca ra ms1 er cs hg, projections_of_numeric ca ra ms2 er cs hg]
  simp only [computeProjections]
  apply round2_le_round2
  have hmonths : (0 : ℤ) ≤ (ra - ca) * 12 := by
    have : (0 : ℤ) ≤ ra - ca := by omega
    exact mul_nonneg this (by norm_num)
  have hmr : 0 ≤ er / 100 / 12 := by positivity
  exact add_le_add_left (future_value_of_annuity_mono hmr hmonths hms) _

/-- Witness for the C7 theorem at a concrete pair of scenarios. -/
theorem c7_total_savings_monotone_in_contribution_witness :
    (calculate_retirement_projections
      { current_age := some (AgeVal.int 30), retirement_age := some (AgeVal.int 31),
        monthly_savings := some (FieldVal.num 100), expected_return := some (FieldVal.num 0),
        current_savings := some (FieldVal.num 0),
        current_annual_income := none }).total_savings ≤
    (calculate_retirement_projections
      { current_age := some (AgeVal.int 30), retirement_age := some (AgeVal.int 31),
        monthly_savings := some (FieldVal.num 200), expected_return := some (FieldVal.num 0),
        current_savings := some (FieldVal.num 0),
        current_annual_income := none }).total_savings :=
  c7_total_savings_monotone_in_contribution 30 31 100 200 0 0
    (by norm_num) (by norm_num) (by norm_num)

/-- Claim C8.  At monthly rate exactly 0 the annuity takes the degenerate
branch payment * months for every payment and every month count (so no
division by zero is performed), and consequently the forward projection
with expected_return = 0 has total_projected_savings equal to
current_savings plus monthly_savings * months_to_retirement, rounded for
display. -/
theorem c8_zero_rate_annuity_degenerates (ca ra : ℤ) (ms cs : ℚ) :
    (∀ (payment : ℚ) (total_months : ℤ),
      future_value_of_annuity payment 0 total_months = payment * (total_months : ℚ)) ∧
    (calculate_retirement_projections
      { current_age := some (AgeVal.int ca), retirement_age := some (AgeVal.int ra),
        monthly_savings := some (FieldVal.num ms), expected_return := some (FieldVal.num 0),
        current_savings := some (FieldVal.num cs),
        current_annual_income := none }).total_savings =
      round2 (cs + ms * (((ra - ca) * 12 : ℤ) : ℚ)) := by
  constructor
  · intro payment total_months
    unfold future_value_of_annuity
    rw [if_neg (lt_irrefl 0)]
  · rw [projections_of_numeric ca ra ms 0 cs (by norm_num)]
    simp only [computeProjections, future_value_of_annuity]
    norm_num

/-- Claim C9.  A malformed-timestamp record is skipped by the inner except
clause while the valid 3000-dollar (300000 cents) deposit into the queried
account is kept: the classifier does not raise and the income figure comes
from the valid record alone (divisor max(min(3, 1/10), 1) = 1). -/
theorem c9_malformed_timestamp_skipped :
    calculate_income_expenses
      [{ timestamp := none, amount := 5000, toAccountNum := some "1011226111",
         fromAccountNum := some "9099791699" },
       { timestamp := some 80, amount := 300000, toAccountNum := some "1011226111",
         fromAccountNum := some "9099791699" }] "1011226111" 0 = (3000, 0) := by
  simp only [calculate_income_expenses, recentTransactions, txStep, List.filter,
    List.foldl, List.isEmpty, List.length]
  norm_num

/-- Claim C10.  In the classification loop a retained record lands in at most
one bucket: when toAccountNum equals the queried account the whole amount is
added to income and expenses are untouched - also for a self-transfer whose
fromAccountNum is the same account - and a record can only touch the expense
total when its toAccountNum differs from the account (the elif). -/
theorem c10_record_counts_in_one_bucket (account_id : String) (acc : ℚ × ℚ) (t : Transaction) :
    (t.toAccountNum = some account_id →
      txStep account_id acc t = (acc.1 + t.amount / 100, acc.2)) ∧
    (t.toAccountNum ≠ some account_id → (txStep account_id acc t).1 = acc.1) := by
  constructor
  · intro h
    simp only [txStep]
    rw [if_pos h]
  · intro h
    simp only [txStep]
    rw [if_neg h]
    by_cases hf : t.fromAccountNum = some account_id
    · rw [if_pos hf]
    · rw [if_neg hf]

/-- Witness for the C10 theorem: a self-transfer inside account A is counted
entirely as income (expenses stay 0), and an outgoing record to another
account leaves the income total unchanged. -/
theorem c10_record_counts_in_one_bucket_witness :
    txStep "A" (0, 0) txSelfA = ((0 : ℚ) + 100 / 100, (0 : ℚ)) ∧
    (txStep "A" (0, 0) txOutA).1 = 0 :=
  ⟨(c10_record_counts_in_one_bucket "A" (0, 0) txSelfA).1 rfl,
   (c10_record_counts_in_one_bucket "A" (0, 0) txOutA).2 (by simp [txOutA])⟩

end RetirementDashboard
